import Mathlib

/-!
Shallow embedding of `src/main.go` (Echo + GORM CRUD service on a `User`
table).  Pure data is embedded directly; the database is embedded as an
explicit list of rows threaded through each handler; each database call
additionally takes a Boolean fault flag so that driver-level failures
(connectivity loss, constraint violations surfaced by the driver) can be
expressed.  HTTP responses are a status code plus a JSON value.
-/

namespace EchoGorm

/-- The `User` entity of `main.go` lines 19-23: `ID uint` (primary key),
`Name string`, `Birthday string`.  `uint` is embedded as `Nat`. -/
structure User where
  ID : Nat
  Name : String
  Birthday : String
deriving DecidableEq, Repr

/-- JSON values, as produced by `encoding/json` marshalling in the
handlers.  `null` is included because a nil Go slice marshals to `null`
while an empty non-nil slice marshals to `[]`. -/
inductive Json where
  | null : Json
  | str : String → Json
  | num : Nat → Json
  | arr : List Json → Json
  | obj : List (String × Json) → Json

/-- An HTTP response: status code and JSON body, as written by
`c.JSON(status, value)`. -/
structure Response where
  status : Nat
  body : Json

/-- JSON marshalling of a `User`: field names come from the struct tags
`json:"ID"`, `json:"Name"`, `json:"Birthday"`. -/
def userJson (u : User) : Json :=
  Json.obj [("ID", Json.num u.ID), ("Name", Json.str u.Name), ("Birthday", Json.str u.Birthday)]

/-- JSON marshalling of the error bodies `map[string]string{"error": msg}`. -/
def errJson (msg : String) : Json :=
  Json.obj [("error", Json.str msg)]

/-- JSON marshalling of a Go `[]User` variable: a nil slice marshals to
`null`, a non-nil slice to a JSON array of its elements. -/
def goSliceJson : Option (List User) → Json
  | none => Json.null
  | some l => Json.arr (l.map userJson)

/-- Digit string to value: `none` if any character is not an ASCII digit.
The empty list yields `some 0`; callers reject the empty list themselves. -/
def digitsToNat : List Char → Option Nat
  | [] => some 0
  | c :: cs =>
    if c.isDigit then
      (digitsToNat cs).map (fun rest => (c.toNat - 48) * 10 ^ cs.length + rest)
    else
      none

/-- Core of `strconv.Atoi`: a non-empty run of ASCII digits with the given
sign, rejected (`ErrRange`, still a non-nil error) outside the 64-bit
`int` range. -/
def atoiCore (neg : Bool) (cs : List Char) : Option Int :=
  if cs.isEmpty then none
  else
    match digitsToNat cs with
    | none => none
    | some n =>
      let v : Int := if neg then -(n : Int) else (n : Int)
      if -(2 ^ 63) ≤ v ∧ v ≤ 2 ^ 63 - 1 then some v else none

/-- The embedding of Go `strconv.Atoi` (`ParseInt(s, 10, 0)` with 64-bit
`int`): optional leading `+` or `-`, then one or more ASCII digits; any
other shape, and any value outside the `int64` range, is an error,
embedded as `none`. -/
def atoi (s : String) : Option Int :=
  match s.toList with
  | '-' :: rest => atoiCore true rest
  | '+' :: rest => atoiCore false rest
  | cs => atoiCore false cs

/-- Outcome of a GORM call: `notFound` is `gorm.ErrRecordNotFound`,
`failure` is any other driver error (connectivity fault, constraint
violation, ...). -/
inductive DBErr where
  | notFound : DBErr
  | failure : DBErr
deriving DecidableEq, Repr

/-- The embedding of `db.Find(&users)` on the `users` table: on success GORM
scans the rows into the destination slice after initialising it to an empty
non-nil slice, so the result is `some` even when the table is empty. -/
def dbFind (fault : Bool) (s : List User) : Except DBErr (Option (List User)) :=
  if fault then Except.error DBErr.failure else Except.ok (some s)

/-- The embedding of `db.First(&user, id)`: the row whose primary key equals
`id` (the `int` from `Atoi`, compared against the `uint` column), or
`ErrRecordNotFound` when there is none. -/
def dbFirst (fault : Bool) (s : List User) (id : Int) : Except DBErr User :=
  if fault then Except.error DBErr.failure
  else
    match s.find? (fun u => (u.ID : Int) = id) with
    | some u => Except.ok u
    | none => Except.error DBErr.notFound

/-- The next auto-assigned primary key, modelling the autoincrement
behaviour of the backing store: one more than the largest id present. -/
def nextId (s : List User) : Nat :=
  (s.map User.ID).foldr max 0 + 1

/-- The embedding of `db.Create(user)`: when the bound struct's primary key
is zero GORM lets the store auto-assign a fresh id and writes it back into
the struct; when the client supplied a nonzero `ID`, GORM inserts that very
id, and a duplicate violates the primary-key constraint (a driver error). -/
def dbCreate (fault : Bool) (s : List User) (u : User) : Except DBErr (User × List User) :=
  if fault then Except.error DBErr.failure
  else if u.ID = 0 then
    let u2 : User := { u with ID := nextId s }
    Except.ok (u2, s ++ [u2])
  else if s.any (fun v => v.ID = u.ID) then Except.error DBErr.failure
  else Except.ok (u, s ++ [u])

/-- The embedding of `db.Save(&user)` with a nonzero primary key: an UPDATE
of all fields of the row with that id (no error and no change when the row
is gone). -/
def dbSave (fault : Bool) (s : List User) (u : User) : Except DBErr (List User) :=
  if fault then Except.error DBErr.failure
  else Except.ok (s.map (fun v => if v.ID = u.ID then u else v))

/-- The embedding of `db.Delete(&user)`: a DELETE of the rows whose primary
key equals `user.ID`. -/
def dbDelete (fault : Bool) (s : List User) (u : User) : Except DBErr (List User) :=
  if fault then Except.error DBErr.failure
  else Except.ok (s.filter (fun v => v.ID ≠ u.ID))

/-- The handler `getUsers` (`main.go` 57-63).  Returns the response and the
resulting table state. -/
def getUsers (findFault : Bool) (s : List User) : Response × List User :=
  match dbFind findFault s with
  | Except.error _ => (⟨500, errJson "Failed to fetch users"⟩, s)
  | Except.ok usersVar => (⟨200, goSliceJson usersVar⟩, s)

/-- The handler `getUser` (`main.go` 66-76).  Note that ANY error from
`db.First` — not only `ErrRecordNotFound` — takes the 404 branch. -/
def getUser (firstFault : Bool) (s : List User) (idParam : String) : Response × List User :=
  match atoi idParam with
  | none => (⟨400, errJson "Invalid user ID"⟩, s)
  | some id =>
    match dbFirst firstFault s id with
    | Except.error _ => (⟨404, errJson "User not found"⟩, s)
    | Except.ok user => (⟨200, userJson user⟩, s)

/-- The handler `createUser` (`main.go` 79-92).  `body` is the result of
`c.Bind`: `none` when the JSON body cannot be decoded into a `User`, else
the decoded struct (absent fields are zero values). -/
def createUser (createFault : Bool) (s : List User) (body : Option User) : Response × List User :=
  match body with
  | none => (⟨400, errJson "Invalid request"⟩, s)
  | some user =>
    if user.Name = "" ∨ user.Birthday = "" then
      (⟨400, errJson "Name and Birthday are required"⟩, s)
    else
      match dbCreate createFault s user with
      | Except.error _ => (⟨500, errJson "Failed to create user"⟩, s)
      | Except.ok (u, s2) => (⟨201, userJson u⟩, s2)

/-- The field overlay of `updateUser` lines 111-117: a non-empty `Name`
or `Birthday` in the decoded body replaces the loaded field, an empty one
leaves it; the loaded record's `ID` is never touched. -/
def mergeUser (user upd : User) : User :=
  let u1 := if upd.Name ≠ "" then { user with Name := upd.Name } else user
  if upd.Birthday ≠ "" then { u1 with Birthday := upd.Birthday } else u1

/-- The handler `updateUser` (`main.go` 95-124): parse id, load (any
`First` error → 404), bind body, overlay non-empty fields, save. -/
def updateUser (firstFault saveFault : Bool) (s : List User) (idParam : String)
    (body : Option User) : Response × List User :=
  match atoi idParam with
  | none => (⟨400, errJson "Invalid user ID"⟩, s)
  | some id =>
    match dbFirst firstFault s id with
    | Except.error _ => (⟨404, errJson "User not found"⟩, s)
    | Except.ok user =>
      match body with
      | none => (⟨400, errJson "Invalid request"⟩, s)
      | some upd =>
        let merged := mergeUser user upd
        match dbSave saveFault s merged with
        | Except.error _ => (⟨500, errJson "Failed to update user"⟩, s)
        | Except.ok s2 => (⟨200, userJson merged⟩, s2)

/-- The handler `deleteUser` (`main.go` 127-143): parse id, load (any
`First` error → 404), delete, confirmation message. -/
def deleteUser (firstFault delFault : Bool) (s : List User) (idParam : String) :
    Response × List User :=
  match atoi idParam with
  | none => (⟨400, errJson "Invalid user ID"⟩, s)
  | some id =>
    match dbFirst firstFault s id with
    | Except.error _ => (⟨404, errJson "User not found"⟩, s)
    | Except.ok user =>
      match dbDelete delFault s user with
      | Except.error _ => (⟨500, errJson "Failed to delete user"⟩, s)
      | Except.ok s2 => (⟨200, Json.obj [("message", Json.str "User deleted successfully")]⟩, s2)

/-- The state invariant of spec section 3: persisted ids are pairwise
distinct and every persisted row has non-empty `Name` and `Birthday`. -/
def Inv (s : List User) : Prop :=
  (s.map User.ID).Nodup ∧ ∀ u ∈ s, u.Name ≠ "" ∧ u.Birthday ≠ ""

instance (s : List User) : Decidable (Inv s) := by
  unfold Inv; infer_instance

/-! Helper lemmas about the embedded operations. -/

lemma mergeUser_eq (u b : User) :
    mergeUser u b =
      ⟨u.ID, if b.Name = "" then u.Name else b.Name,
        if b.Birthday = "" then u.Birthday else b.Birthday⟩ := by
  unfold mergeUser
  by_cases hn : b.Name = "" <;> by_cases hb : b.Birthday = "" <;> simp [hn, hb]

lemma mergeUser_ID (u b : User) : (mergeUser u b).ID = u.ID := by
  rw [mergeUser_eq]

lemma mergeUser_idem (u b : User) : mergeUser (mergeUser u b) b = mergeUser u b := by
  simp only [mergeUser_eq]
  by_cases hn : b.Name = "" <;> by_cases hb : b.Birthday = "" <;> simp [hn, hb]

lemma le_foldr_max (a : Nat) (l : List Nat) (h : a ∈ l) : a ≤ l.foldr max 0 := by
  induction l with
  | nil => exact absurd h (List.not_mem_nil a)
  | cons x xs ih =>
    rw [List.foldr_cons]
    rcases List.mem_cons.mp h with rfl | hm
    · exact Nat.le_max_left _ _
    · exact Nat.le_trans (ih hm) (Nat.le_max_right _ _)

lemma nextId_not_mem (s : List User) : nextId s ∉ s.map User.ID := by
  intro hmem
  have h := le_foldr_max _ _ hmem
  simp only [nextId] at h
  omega

lemma getUsers_state (f : Bool) (s : List User) : (getUsers f s).2 = s := by
  unfold getUsers dbFind
  cases f <;> simp

lemma getUser_state (f : Bool) (s : List User) (idp : String) : (getUser f s idp).2 = s := by
  unfold getUser
  split
  · rfl
  · split <;> rfl

lemma save_map_ID (s : List User) (u : User) :
    (s.map (fun v => if v.ID = u.ID then u else v)).map User.ID = s.map User.ID := by
  rw [List.map_map]
  refine List.map_congr_left (fun a _ => ?_)
  by_cases h : a.ID = u.ID <;> simp [h]

lemma save_save (s : List User) (u : User) :
    ((s.map (fun v => if v.ID = u.ID then u else v)).map
        (fun v => if v.ID = u.ID then u else v))
      = s.map (fun v => if v.ID = u.ID then u else v) := by
  rw [List.map_map]
  refine List.map_congr_left (fun a _ => ?_)
  by_cases h : a.ID = u.ID <;> simp [h]

lemma find?_save_eq (s : List User) (u w : User) (i : Int)
    (hid : u.ID = w.ID)
    (hw : s.find? (fun v => (v.ID : Int) = i) = some w) :
    (s.map (fun v => if v.ID = u.ID then u else v)).find? (fun v => (v.ID : Int) = i)
      = some u := by
  induction s with
  | nil => simp at hw
  | cons a as ih =>
    by_cases hpa : (a.ID : Int) = i
    · have haw : a = w := by simpa [List.find?_cons, hpa] using hw
      have hau : a.ID = u.ID := by rw [hid, ← haw]
      have hui : (u.ID : Int) = i := by rw [← hau]; exact hpa
      simp [List.find?_cons, hau, hui]
    · have hw2 : as.find? (fun v => (v.ID : Int) = i) = some w := by
        simpa [List.find?_cons, hpa] using hw
      have hwi : ((w.ID : Nat) : Int) = i := by
        have h := List.find?_some hw2
        simpa using h
      have hau : ¬ a.ID = u.ID := by
        intro h
        apply hpa
        rw [h, hid]
        exact hwi
      simp only [List.map_cons, List.find?_cons, if_neg hau, hpa, decide_eq_true_eq,
        decide_False]
      exact ih hw2

lemma find?_filter_none (s : List User) (u : User) (i : Int) (hui : (u.ID : Int) = i) :
    (s.filter (fun v => v.ID ≠ u.ID)).find? (fun v => (v.ID : Int) = i) = none := by
  rw [List.find?_eq_none]
  intro x hx hpx
  have hxu : x.ID ≠ u.ID := by
    have h := (List.mem_filter.mp hx).2
    simpa using h
  apply hxu
  have hxi : (x.ID : Int) = i := by simpa using hpx
  have h2 : (x.ID : Int) = (u.ID : Int) := by rw [hxi, ← hui]
  exact_mod_cast h2

lemma getUser_400 (f : Bool) (s : List User) (idp : String) (hid : atoi idp = none) :
    getUser f s idp = (⟨400, errJson "Invalid user ID"⟩, s) := by
  simp [getUser, hid]

lemma getUser_404 (s : List User) (idp : String) (i : Int) (hid : atoi idp = some i)
    (hfind : s.find? (fun v => (v.ID : Int) = i) = none) :
    getUser false s idp = (⟨404, errJson "User not found"⟩, s) := by
  simp [getUser, hid, dbFirst, hfind]

lemma getUser_200 (s : List User) (idp : String) (i : Int) (u : User)
    (hid : atoi idp = some i)
    (hfind : s.find? (fun v => (v.ID : Int) = i) = some u) :
    getUser false s idp = (⟨200, userJson u⟩, s) := by
  simp [getUser, hid, dbFirst, hfind]

lemma getUser_fault_404 (s : List User) (idp : String) (i : Int) (hid : atoi idp = some i) :
    getUser true s idp = (⟨404, errJson "User not found"⟩, s) := by
  simp [getUser, hid, dbFirst]

lemma updateUser_eq (s : List User) (idp : String) (i : Int) (b u : User)
    (hid : atoi idp = some i)
    (hfind : s.find? (fun v => (v.ID : Int) = i) = some u) :
    updateUser false false s idp (some b)
      = (⟨200, userJson (mergeUser u b)⟩,
          s.map (fun v => if v.ID = (mergeUser u b).ID then mergeUser u b else v)) := by
  simp [updateUser, hid, dbFirst, hfind, dbSave]

lemma updateUser_404 (f2 : Bool) (s : List User) (idp : String) (i : Int)
    (body : Option User) (hid : atoi idp = some i)
    (hfind : s.find? (fun v => (v.ID : Int) = i) = none) :
    updateUser false f2 s idp body = (⟨404, errJson "User not found"⟩, s) := by
  simp [updateUser, hid, dbFirst, hfind]

lemma deleteUser_eq (s : List User) (idp : String) (i : Int) (u : User)
    (hid : atoi idp = some i)
    (hfind : s.find? (fun v => (v.ID : Int) = i) = some u) :
    deleteUser false false s idp
      = (⟨200, Json.obj [("message", Json.str "User deleted successfully")]⟩,
          s.filter (fun v => v.ID ≠ u.ID)) := by
  simp [deleteUser, hid, dbFirst, hfind, dbDelete]

lemma deleteUser_404 (f2 : Bool) (s : List User) (idp : String) (i : Int)
    (hid : atoi idp = some i)
    (hfind : s.find? (fun v => (v.ID : Int) = i) = none) :
    deleteUser false f2 s idp = (⟨404, errJson "User not found"⟩, s) := by
  simp [deleteUser, hid, dbFirst, hfind]

lemma any_eq_false_ID (s : List User) (u : User)
    (h : s.any (fun v => v.ID = u.ID) = false) : ∀ v ∈ s, v.ID ≠ u.ID := by
  intro v hv
  have h2 := List.any_eq_false.mp h v hv
  simpa using h2

lemma nodup_append_singleton (l : List Nat) (x : Nat) (hl : l.Nodup) (hx : x ∉ l) :
    (l ++ [x]).Nodup := by
  rw [List.nodup_append]
  refine ⟨hl, List.nodup_singleton x, ?_⟩
  intro a ha hax
  have hax2 : a = x := List.mem_singleton.mp hax
  subst hax2
  exact hx ha

lemma createUser_empty (f : Bool) (s : List User) (u : User)
    (h : u.Name = "" ∨ u.Birthday = "") :
    createUser f s (some u) = (⟨400, errJson "Name and Birthday are required"⟩, s) := by
  simp [createUser, h]

lemma createUser_fault (s : List User) (u : User) (hn : ¬ u.Name = "")
    (hb : ¬ u.Birthday = "") :
    createUser true s (some u) = (⟨500, errJson "Failed to create user"⟩, s) := by
  simp [createUser, hn, hb, dbCreate]

lemma createUser_auto (s : List User) (u : User) (hn : ¬ u.Name = "")
    (hb : ¬ u.Birthday = "") (hz : u.ID = 0) :
    createUser false s (some u)
      = (⟨201, userJson ⟨nextId s, u.Name, u.Birthday⟩⟩,
          s ++ [⟨nextId s, u.Name, u.Birthday⟩]) := by
  simp [createUser, hn, hb, dbCreate, hz]

lemma createUser_client (s : List User) (u : User) (hn : ¬ u.Name = "")
    (hb : ¬ u.Birthday = "") (hz : ¬ u.ID = 0)
    (hany : s.any (fun v => v.ID = u.ID) = false) :
    createUser false s (some u) = (⟨201, userJson u⟩, s ++ [u]) := by
  simp [createUser, hn, hb, dbCreate, hz, hany]

lemma createUser_dup (s : List User) (u : User) (hn : ¬ u.Name = "")
    (hb : ¬ u.Birthday = "") (hz : ¬ u.ID = 0)
    (hany : s.any (fun v => v.ID = u.ID) = true) :
    createUser false s (some u) = (⟨500, errJson "Failed to create user"⟩, s) := by
  simp [createUser, hn, hb, dbCreate, hz, hany]

lemma dbFirst_ok_mem (f : Bool) (s : List User) (i : Int) (u : User)
    (h : dbFirst f s i = Except.ok u) : u ∈ s ∧ (u.ID : Int) = i := by
  unfold dbFirst at h
  cases f with
  | true => simp at h
  | false =>
    simp only [Bool.false_eq_true, if_false] at h
    cases hfind : s.find? (fun v => (v.ID : Int) = i) with
    | none => rw [hfind] at h; simp at h
    | some w =>
      rw [hfind] at h
      simp only [Except.ok.injEq] at h
      subst h
      refine ⟨List.mem_of_find?_eq_some hfind, ?_⟩
      have h2 := List.find?_some hfind
      simpa using h2

lemma inv_createUser (f : Bool) (s : List User) (body : Option User) (h : Inv s) :
    Inv (createUser f s body).2 := by
  cases body with
  | none => simpa [createUser] using h
  | some u =>
    by_cases hreq : u.Name = "" ∨ u.Birthday = ""
    · rw [createUser_empty f s u hreq]; exact h
    · push_neg at hreq
      obtain ⟨hn, hb⟩ := hreq
      cases f with
      | true => rw [createUser_fault s u hn hb]; exact h
      | false =>
        obtain ⟨hnd, hfields⟩ := h
        by_cases hz : u.ID = 0
        · rw [createUser_auto s u hn hb hz]
          constructor
          · simp only [List.map_append, List.map_cons, List.map_nil]
            exact nodup_append_singleton _ _ hnd (nextId_not_mem s)
          · intro w hw
            rcases List.mem_append.mp hw with hw1 | hw2
            · exact hfields w hw1
            · have hw3 : w = ⟨nextId s, u.Name, u.Birthday⟩ := List.mem_singleton.mp hw2
              subst hw3
              exact ⟨hn, hb⟩
        · cases hany : s.any (fun v => v.ID = u.ID) with
          | true =>
            rw [createUser_dup s u hn hb hz hany]
            exact ⟨hnd, hfields⟩
          | false =>
            rw [createUser_client s u hn hb hz hany]
            constructor
            · simp only [List.map_append, List.map_cons, List.map_nil]
              refine nodup_append_singleton _ _ hnd ?_
              intro hmem
              rcases List.mem_map.mp hmem with ⟨v, hv, hvid⟩
              exact (any_eq_false_ID s u hany v hv) hvid
            · intro w hw
              rcases List.mem_append.mp hw with hw1 | hw2
              · exact hfields w hw1
              · have hw3 : w = u := List.mem_singleton.mp hw2
                subst hw3
                exact ⟨hn, hb⟩

lemma mergeUser_fields (u b : User) (hn : ¬ u.Name = "") (hb : ¬ u.Birthday = "") :
    ¬ (mergeUser u b).Name = "" ∧ ¬ (mergeUser u b).Birthday = "" := by
  rw [mergeUser_eq]
  constructor
  · by_cases hbn : b.Name = "" <;> simp [hbn, hn]
  · by_cases hbb : b.Birthday = "" <;> simp [hbb, hb]

lemma inv_updateUser (f1 f2 : Bool) (s : List User) (idp : String) (body : Option User)
    (h : Inv s) : Inv (updateUser f1 f2 s idp body).2 := by
  cases hatoi : atoi idp with
  | none => simpa [updateUser, hatoi] using h
  | some i =>
    cases hfirst : dbFirst f1 s i with
    | error e => simpa [updateUser, hatoi, hfirst] using h
    | ok u =>
      cases body with
      | none => simpa [updateUser, hatoi, hfirst] using h
      | some b =>
        cases f2 with
        | true => simpa [updateUser, hatoi, hfirst, dbSave] using h
        | false =>
          have hstate : (updateUser f1 false s idp (some b)).2
              = s.map (fun v => if v.ID = (mergeUser u b).ID then mergeUser u b else v) := by
            simp [updateUser, hatoi, hfirst, dbSave]
          rw [hstate]
          obtain ⟨hmem, _⟩ := dbFirst_ok_mem f1 s i u hfirst
          obtain ⟨hnd, hfields⟩ := h
          constructor
          · rw [save_map_ID]
            exact hnd
          · intro w hw
            rcases List.mem_map.mp hw with ⟨v, hv, hfv⟩
            by_cases hcase : v.ID = (mergeUser u b).ID
            · rw [if_pos hcase] at hfv
              subst hfv
              obtain ⟨hn, hb⟩ := hfields u hmem
              exact mergeUser_fields u b hn hb
            · rw [if_neg hcase] at hfv
              subst hfv
              exact hfields v hv

lemma updateUser_body_400 (s : List User) (idp : String) (i : Int) (u : User)
    (hid : atoi idp = some i)
    (hfind : s.find? (fun v => (v.ID : Int) = i) = some u) :
    updateUser false false s idp none = (⟨400, errJson "Invalid request"⟩, s) := by
  simp [updateUser, hid, dbFirst, hfind]

lemma inv_deleteUser (f1 f2 : Bool) (s : List User) (idp : String) (h : Inv s) :
    Inv (deleteUser f1 f2 s idp).2 := by
  cases hatoi : atoi idp with
  | none => simpa [deleteUser, hatoi] using h
  | some i =>
    cases hfirst : dbFirst f1 s i with
    | error e => simpa [deleteUser, hatoi, hfirst] using h
    | ok u =>
      cases f2 with
      | true => simpa [deleteUser, hatoi, hfirst, dbDelete] using h
      | false =>
        have hstate : (deleteUser f1 false s idp).2 = s.filter (fun v => v.ID ≠ u.ID) := by
          simp [deleteUser, hatoi, hfirst, dbDelete]
        rw [hstate]
        obtain ⟨hnd, hfields⟩ := h
        constructor
        · exact List.Nodup.sublist (List.Sublist.map User.ID (List.filter_sublist s)) hnd
        · intro w hw
          exact hfields w (List.mem_filter.mp hw).1

/-! Claim theorems. -/

/-- Claim C1: for `PUT /users/:id` with a well-formed integer id and a
parsable JSON body, the handler first loads the existing record — answering
404 with the state unchanged when no record with that id exists — otherwise
overlays onto the loaded record exactly those of the body's `Name` and
`Birthday` fields that are non-empty (an empty string leaves the loaded
field unchanged), persists the merged record and returns 200 with the
merged user. -/
theorem C1_update_overlay (s : List User) (idp : String) (i : Int) (b : User)
    (hid : atoi idp = some i) :
    (s.find? (fun v => (v.ID : Int) = i) = none →
      updateUser false false s idp (some b) = (⟨404, errJson "User not found"⟩, s)) ∧
    (∀ u, s.find? (fun v => (v.ID : Int) = i) = some u →
      updateUser false false s idp (some b)
        = (⟨200, userJson ⟨u.ID,
              if b.Name = "" then u.Name else b.Name,
              if b.Birthday = "" then u.Birthday else b.Birthday⟩⟩,
            s.map (fun v => if v.ID = u.ID then
              (⟨u.ID, if b.Name = "" then u.Name else b.Name,
                if b.Birthday = "" then u.Birthday else b.Birthday⟩ : User) else v))) := by
  constructor
  · intro hfind
    exact updateUser_404 false s idp i (some b) hid hfind
  · intro u hfind
    have h := updateUser_eq s idp i b u hid hfind
    rw [mergeUser_eq] at h
    simpa using h

/-- Witness for C1 at a concrete input: an update with empty `Name` and
non-empty `Birthday` keeps the stored name and replaces the birthday. -/
theorem C1_update_overlay_witness :
    updateUser false false [⟨1, "Ada", "1815-12-10"⟩] "1" (some ⟨0, "", "1816-01-01"⟩)
      = (⟨200, userJson ⟨1, "Ada", "1816-01-01"⟩⟩, [⟨1, "Ada", "1816-01-01"⟩]) := by
  have h := (C1_update_overlay [⟨1, "Ada", "1815-12-10"⟩] "1" 1 ⟨0, "", "1816-01-01"⟩
      (by decide)).2 ⟨1, "Ada", "1815-12-10"⟩ (by decide)
  simpa using h

/-- Claim C2 counterexample: with the record for id 1 present, a generic
driver failure (not a not-found result) on the `db.First` of
`GET /users/1` is answered with 404, not with the 500 the claim
requires — `getUser` maps every `First` error to 404. -/
theorem C2_counterexample :
    (getUser true [⟨1, "Ada", "1815-12-10"⟩] "1").1.status = 404 ∧
    ¬ (getUser true [⟨1, "Ada", "1815-12-10"⟩] "1").1.status = 500 := by
  decide

/-- Claim C2 as amended: database errors on find-all, insert, save and
delete are surfaced as 500 with no differentiation, but ANY error of the
find-by-id (`db.First`) lookup — not-found or otherwise — is surfaced as
404 by all three handlers that perform it: Get, Update and Delete (the
latter two regardless of the body and of the fate of their later write). -/
theorem C2_error_mapping (f2 : Bool) (s : List User) (idp : String) (i : Int)
    (u b : User) (body : Option User) :
    (getUsers true s).1.status = 500 ∧
    (atoi idp = some i → (getUser true s idp).1.status = 404) ∧
    (atoi idp = some i → (updateUser true f2 s idp body).1.status = 404) ∧
    (atoi idp = some i → (deleteUser true f2 s idp).1.status = 404) ∧
    (¬ b.Name = "" → ¬ b.Birthday = "" → (createUser true s (some b)).1.status = 500) ∧
    (atoi idp = some i → s.find? (fun v => (v.ID : Int) = i) = some u →
      (updateUser false true s idp (some b)).1.status = 500) ∧
    (atoi idp = some i → s.find? (fun v => (v.ID : Int) = i) = some u →
      (deleteUser false true s idp).1.status = 500) := by
  refine ⟨?_, ?_, ?_, ?_, ?_, ?_, ?_⟩
  · simp [getUsers, dbFind]
  · intro hid
    rw [getUser_fault_404 s idp i hid]
  · intro hid
    simp [updateUser, hid, dbFirst]
  · intro hid
    simp [deleteUser, hid, dbFirst]
  · intro hn hb
    rw [createUser_fault s b hn hb]
  · intro hid hfind
    simp [updateUser, hid, dbFirst, hfind, dbSave]
  · intro hid hfind
    simp [deleteUser, hid, dbFirst, hfind, dbDelete]

/-- Witness for the amended C2 at concrete inputs: a faulting `db.First`
turns Get, Update and Delete into 404s even though id 1 is present, while
faulting insert, save and delete calls all surface as 500. -/
theorem C2_error_mapping_witness :
    (getUsers true [⟨1, "a", "b"⟩]).1.status = 500 ∧
    (getUser true [⟨1, "a", "b"⟩] "1").1.status = 404 ∧
    (updateUser true false [⟨1, "a", "b"⟩] "1" (some ⟨0, "x", "y"⟩)).1.status = 404 ∧
    (deleteUser true false [⟨1, "a", "b"⟩] "1").1.status = 404 ∧
    (createUser true [⟨1, "a", "b"⟩] (some ⟨0, "x", "y"⟩)).1.status = 500 ∧
    (updateUser false true [⟨1, "a", "b"⟩] "1" (some ⟨0, "x", "y"⟩)).1.status = 500 ∧
    (deleteUser false true [⟨1, "a", "b"⟩] "1").1.status = 500 := by
  have h := C2_error_mapping false [⟨1, "a", "b"⟩] "1" 1 ⟨1, "a", "b"⟩ ⟨0, "x", "y"⟩
      (some ⟨0, "x", "y"⟩)
  exact ⟨h.1, h.2.1 (by decide), h.2.2.1 (by decide), h.2.2.2.1 (by decide),
    h.2.2.2.2.1 (by decide) (by decide),
    h.2.2.2.2.2.1 (by decide) (by decide), h.2.2.2.2.2.2 (by decide) (by decide)⟩

/-- Claim C3 counterexample: List does not ALWAYS return 200 — when the
store read fails the handler answers 500 (`main.go` line 60). -/
theorem C3_counterexample :
    (getUsers true []).1.status = 500 ∧ ¬ (getUsers true []).1.status = 200 := by
  decide

/-- Claim C3 as amended: whenever the store read succeeds, List returns 200
with a JSON array of all persisted Users, and on an empty store the body is
the empty JSON array, which is distinct from JSON null. -/
theorem C3_list_array (s : List User) :
    getUsers false s = (⟨200, Json.arr (s.map userJson)⟩, s) ∧
    (getUsers false []).1.body = Json.arr [] ∧
    Json.arr [] ≠ Json.null := by
  refine ⟨?_, ?_, ?_⟩
  · simp [getUsers, dbFind, goSliceJson]
  · rfl
  · intro h
    exact Json.noConfusion h

/-- Claim C4 counterexample: a Get with path parameter `"-1"` is answered
404, not the 400 the claim requires for a negative id — `strconv.Atoi`
accepts `"-1"`, so the handler proceeds to the (empty) lookup. -/
theorem C4_counterexample :
    (getUser false [] "-1").1.status = 404 ∧ ¬ (getUser false [] "-1").1.status = 400 := by
  decide

/-- Claim C4 as amended: Get answers 400 exactly when `strconv.Atoi`
rejects the path parameter (non-numeric text, or out of 64-bit range); for
any successfully parsed id — negative ones included — it answers 404 when
no user carries that id and 200 with the user otherwise. -/
theorem C4_get_status (s : List User) (idp : String) :
    (atoi idp = none → getUser false s idp = (⟨400, errJson "Invalid user ID"⟩, s)) ∧
    (∀ i, atoi idp = some i → s.find? (fun v => (v.ID : Int) = i) = none →
      getUser false s idp = (⟨404, errJson "User not found"⟩, s)) ∧
    (∀ i u, atoi idp = some i → s.find? (fun v => (v.ID : Int) = i) = some u →
      getUser false s idp = (⟨200, userJson u⟩, s)) := by
  exact ⟨fun h => getUser_400 false s idp h,
    fun i hid hf => getUser_404 s idp i hid hf,
    fun i u hid hf => getUser_200 s idp i u hid hf⟩

/-- Witness for the amended C4: 400 on `"abc"`, 404 on `"-1"`, 200 on a
present id. -/
theorem C4_get_status_witness :
    getUser false [] "abc" = (⟨400, errJson "Invalid user ID"⟩, []) ∧
    getUser false [] "-1" = (⟨404, errJson "User not found"⟩, []) ∧
    getUser false [⟨1, "a", "b"⟩] "1" = (⟨200, userJson ⟨1, "a", "b"⟩⟩, [⟨1, "a", "b"⟩]) :=
  ⟨(C4_get_status [] "abc").1 (by decide),
    (C4_get_status [] "-1").2.1 (-1) (by decide) (by decide),
    (C4_get_status [⟨1, "a", "b"⟩] "1").2.2 1 ⟨1, "a", "b"⟩ (by decide) (by decide)⟩

/-- Claim C5 counterexample: the created id is NOT store-assigned regardless
of the body's ID field — `c.Bind` decodes a client-supplied `ID` into the
struct and `db.Create` inserts it verbatim: on an empty store a body with
`ID = 42` yields id 42, while the same body with `ID = 0` yields the
store-assigned id 1. -/
theorem C5_counterexample :
    createUser false [] (some ⟨42, "Ada", "1815-12-10"⟩)
        = (⟨201, userJson ⟨42, "Ada", "1815-12-10"⟩⟩, [⟨42, "Ada", "1815-12-10"⟩]) ∧
    createUser false [] (some ⟨0, "Ada", "1815-12-10"⟩)
        = (⟨201, userJson ⟨1, "Ada", "1815-12-10"⟩⟩, [⟨1, "Ada", "1815-12-10"⟩]) := by
  constructor <;> rfl

/-- Claim C5 as amended: the store assigns a fresh id only when the decoded
body's `ID` is zero (absent or explicitly 0); a nonzero client-supplied
`ID` is inserted as-is when unused, and collides with the primary-key
constraint (surfaced as 500, store unchanged) when already present. -/
theorem C5_create_id (s : List User) (b : User) (hn : ¬ b.Name = "")
    (hb : ¬ b.Birthday = "") :
    (b.ID = 0 →
      createUser false s (some b)
        = (⟨201, userJson ⟨nextId s, b.Name, b.Birthday⟩⟩,
            s ++ [⟨nextId s, b.Name, b.Birthday⟩]) ∧
      nextId s ∉ s.map User.ID) ∧
    (¬ b.ID = 0 → s.any (fun v => v.ID = b.ID) = false →
      createUser false s (some b) = (⟨201, userJson b⟩, s ++ [b])) ∧
    (¬ b.ID = 0 → s.any (fun v => v.ID = b.ID) = true →
      createUser false s (some b) = (⟨500, errJson "Failed to create user"⟩, s)) :=
  ⟨fun hz => ⟨createUser_auto s b hn hb hz, nextId_not_mem s⟩,
    fun hz hany => createUser_client s b hn hb hz hany,
    fun hz hany => createUser_dup s b hn hb hz hany⟩

/-- Witness for the amended C5: with id 1 taken, an ID-less body is
assigned the fresh id 2. -/
theorem C5_create_id_witness :
    createUser false [⟨1, "a", "b"⟩] (some ⟨0, "Ada", "1815-12-10"⟩)
      = (⟨201, userJson ⟨2, "Ada", "1815-12-10"⟩⟩,
          [⟨1, "a", "b"⟩, ⟨2, "Ada", "1815-12-10"⟩]) := by
  have h := ((C5_create_id [⟨1, "a", "b"⟩] ⟨0, "Ada", "1815-12-10"⟩
      (by decide) (by decide)).1 (by decide)).1
  simpa [nextId] using h

/-- Claim C6: a Create whose body is unparsable, or whose decoded `Name` or
`Birthday` is the empty string, is answered 400 and creates no record: the
persisted state (hence the List count) is unchanged. -/
theorem C6_create_invalid (f : Bool) (s : List User) (b : User) :
    createUser f s none = (⟨400, errJson "Invalid request"⟩, s) ∧
    (b.Name = "" ∨ b.Birthday = "" →
      createUser f s (some b) = (⟨400, errJson "Name and Birthday are required"⟩, s)) := by
  constructor
  · rfl
  · intro h
    exact createUser_empty f s b h

/-- Witness for C6 at concrete inputs: an unparsable body and an
empty-name body are both rejected with the store intact. -/
theorem C6_create_invalid_witness :
    createUser false [⟨1, "a", "b"⟩] none
      = (⟨400, errJson "Invalid request"⟩, [⟨1, "a", "b"⟩]) ∧
    createUser false [⟨1, "a", "b"⟩] (some ⟨0, "", "1999-01-01"⟩)
      = (⟨400, errJson "Name and Birthday are required"⟩, [⟨1, "a", "b"⟩]) :=
  ⟨(C6_create_invalid false [⟨1, "a", "b"⟩] ⟨0, "", ""⟩).1,
    (C6_create_invalid false [⟨1, "a", "b"⟩] ⟨0, "", "1999-01-01"⟩).2 (by decide)⟩

/-- Claim C7: every handler — under any fault pattern — preserves the
invariant that persisted ids are pairwise distinct and every persisted
user has non-empty `Name` and `Birthday`; in particular Update can never
empty either field. -/
theorem C7_invariant_preserved (f1 f2 : Bool) (s : List User) (idp : String)
    (body : Option User) (h : Inv s) :
    Inv (getUsers f1 s).2 ∧ Inv (getUser f1 s idp).2 ∧ Inv (createUser f1 s body).2 ∧
    Inv (updateUser f1 f2 s idp body).2 ∧ Inv (deleteUser f1 f2 s idp).2 := by
  refine ⟨?_, ?_, inv_createUser f1 s body h, inv_updateUser f1 f2 s idp body h,
    inv_deleteUser f1 f2 s idp h⟩
  · rw [getUsers_state]
    exact h
  · rw [getUser_state]
    exact h

/-- Witness for C7: the invariant holds of a concrete store and survives a
create and an update with an empty-string field. -/
theorem C7_invariant_preserved_witness :
    Inv [⟨1, "a", "b"⟩] ∧
    Inv (createUser false [⟨1, "a", "b"⟩] (some ⟨0, "x", "y"⟩)).2 ∧
    Inv (updateUser false false [⟨1, "a", "b"⟩] "1" (some ⟨7, "", "z"⟩)).2 := by
  have h1 := C7_invariant_preserved false false [⟨1, "a", "b"⟩] "1"
      (some ⟨0, "x", "y"⟩) (by decide)
  have h2 := C7_invariant_preserved false false [⟨1, "a", "b"⟩] "1"
      (some ⟨7, "", "z"⟩) (by decide)
  exact ⟨by decide, h1.2.2.1, h2.2.2.2.1⟩

/-- Claim C8: partial update is idempotent — for an existing user and a
fixed payload (empty-string fields meaning no change), running the same
update twice leaves the same persisted state as running it once. -/
theorem C8_update_idempotent (s : List User) (idp : String) (i : Int) (b u : User)
    (hid : atoi idp = some i)
    (hfind : s.find? (fun v => (v.ID : Int) = i) = some u) :
    (updateUser false false (updateUser false false s idp (some b)).2 idp (some b)).2
      = (updateUser false false s idp (some b)).2 := by
  have h1 := updateUser_eq s idp i b u hid hfind
  have hs1 : (updateUser false false s idp (some b)).2
      = s.map (fun v => if v.ID = (mergeUser u b).ID then mergeUser u b else v) := by
    rw [h1]
  have hfind2 : ((s.map (fun v => if v.ID = (mergeUser u b).ID then mergeUser u b else v)).find?
        (fun v => (v.ID : Int) = i)) = some (mergeUser u b) :=
    find?_save_eq s (mergeUser u b) u i (mergeUser_ID u b) hfind
  have h2 := updateUser_eq _ idp i b (mergeUser u b) hid hfind2
  have hs2 : (updateUser false false
        (s.map (fun v => if v.ID = (mergeUser u b).ID then mergeUser u b else v))
        idp (some b)).2
      = (s.map (fun v => if v.ID = (mergeUser u b).ID then mergeUser u b else v)).map
          (fun v => if v.ID = (mergeUser (mergeUser u b) b).ID then
            mergeUser (mergeUser u b) b else v) := by
    rw [h2]
  rw [hs1, hs2, mergeUser_idem]
  exact save_save s (mergeUser u b)

/-- Witness for C8 at a concrete input: repeating a name-only update of
user 1 leaves the once-updated state. -/
theorem C8_update_idempotent_witness :
    (updateUser false false
        (updateUser false false [⟨1, "a", "b"⟩] "1" (some ⟨0, "n", ""⟩)).2
        "1" (some ⟨0, "n", ""⟩)).2
      = (updateUser false false [⟨1, "a", "b"⟩] "1" (some ⟨0, "n", ""⟩)).2 :=
  C8_update_idempotent [⟨1, "a", "b"⟩] "1" 1 ⟨0, "n", ""⟩ ⟨1, "a", "b"⟩
    (by decide) (by decide)

/-- Claim C9: deleting an existing id answers 200 with the confirmation
message and removes exactly that record; afterwards a Get of the same id
answers 404 and a repeated Delete answers 404. -/
theorem C9_delete_spec (s : List User) (idp : String) (i : Int) (u : User)
    (hid : atoi idp = some i)
    (hfind : s.find? (fun v => (v.ID : Int) = i) = some u) :
    deleteUser false false s idp
      = (⟨200, Json.obj [("message", Json.str "User deleted successfully")]⟩,
          s.filter (fun v => v.ID ≠ u.ID)) ∧
    getUser false (deleteUser false false s idp).2 idp
      = (⟨404, errJson "User not found"⟩, s.filter (fun v => v.ID ≠ u.ID)) ∧
    deleteUser false false (deleteUser false false s idp).2 idp
      = (⟨404, errJson "User not found"⟩, s.filter (fun v => v.ID ≠ u.ID)) := by
  have hdel := deleteUser_eq s idp i u hid hfind
  have hui : (u.ID : Int) = i := by
    have h2 := List.find?_some hfind
    simpa using h2
  have hnone := find?_filter_none s u i hui
  have hstate : (deleteUser false false s idp).2 = s.filter (fun v => v.ID ≠ u.ID) := by
    rw [hdel]
  refine ⟨hdel, ?_, ?_⟩
  · rw [hstate]
    exact getUser_404 _ idp i hid hnone
  · rw [hstate]
    exact deleteUser_404 false _ idp i hid hnone

/-- Witness for C9 at a concrete input: deleting id 1 from a two-user
store keeps only user 2, and both follow-up requests answer 404. -/
theorem C9_delete_spec_witness :
    deleteUser false false [⟨1, "a", "b"⟩, ⟨2, "c", "d"⟩] "1"
      = (⟨200, Json.obj [("message", Json.str "User deleted successfully")]⟩,
          [⟨2, "c", "d"⟩]) ∧
    (getUser false (deleteUser false false [⟨1, "a", "b"⟩, ⟨2, "c", "d"⟩] "1").2 "1").1.status
      = 404 ∧
    (deleteUser false false
        (deleteUser false false [⟨1, "a", "b"⟩, ⟨2, "c", "d"⟩] "1").2 "1").1.status = 404 := by
  have h := C9_delete_spec [⟨1, "a", "b"⟩, ⟨2, "c", "d"⟩] "1" 1 ⟨1, "a", "b"⟩
      (by decide) (by decide)
  refine ⟨?_, ?_, ?_⟩
  · simpa using h.1
  · rw [h.2.1]
  · rw [h.2.2]

/-- Claim C10: frame property of Update — a successful update changes at
most the `Name` and `Birthday` of the user with the requested id, keeping
its id even when the body carries an `ID` field, and leaves every other
persisted user unchanged; an update answered 400 or 404 leaves the whole
persisted state unchanged. -/
theorem C10_update_frame (s : List User) (idp : String) (body : Option User) :
    (atoi idp = none →
      updateUser false false s idp body = (⟨400, errJson "Invalid user ID"⟩, s)) ∧
    (∀ i, atoi idp = some i → s.find? (fun v => (v.ID : Int) = i) = none →
      updateUser false false s idp body = (⟨404, errJson "User not found"⟩, s)) ∧
    (∀ i u, atoi idp = some i → s.find? (fun v => (v.ID : Int) = i) = some u →
      body = none →
      updateUser false false s idp body = (⟨400, errJson "Invalid request"⟩, s)) ∧
    (∀ i u b, atoi idp = some i → s.find? (fun v => (v.ID : Int) = i) = some u →
      body = some b →
      (updateUser false false s idp body).1.status = 200 ∧
      (mergeUser u b).ID = u.ID ∧
      (updateUser false false s idp body).2
        = s.map (fun v => if v.ID = u.ID then mergeUser u b else v) ∧
      (∀ v ∈ s, ¬ v.ID = u.ID → v ∈ (updateUser false false s idp body).2)) := by
  refine ⟨?_, ?_, ?_, ?_⟩
  · intro h
    simp [updateUser, h]
  · intro i hid hfind
    exact updateUser_404 false s idp i body hid hfind
  · intro i u hid hfind hbody
    subst hbody
    exact updateUser_body_400 s idp i u hid hfind
  · intro i u b hid hfind hbody
    subst hbody
    have h := updateUser_eq s idp i b u hid hfind
    simp only [mergeUser_ID] at h
    have hstate : (updateUser false false s idp (some b)).2
        = s.map (fun v => if v.ID = u.ID then mergeUser u b else v) := by
      rw [h]
    refine ⟨by rw [h], mergeUser_ID u b, hstate, ?_⟩
    intro v hv hne
    rw [hstate]
    exact List.mem_map.mpr ⟨v, hv, by rw [if_neg hne]⟩

/-- Witness for C10 at concrete inputs: a malformed id leaves the store
unchanged, and an update of user 1 whose body carries `ID = 7` keeps id 1
and leaves user 2 untouched. -/
theorem C10_update_frame_witness :
    updateUser false false [⟨1, "a", "b"⟩, ⟨2, "c", "d"⟩] "abc" (some ⟨7, "x", "y"⟩)
      = (⟨400, errJson "Invalid user ID"⟩, [⟨1, "a", "b"⟩, ⟨2, "c", "d"⟩]) ∧
    (updateUser false false [⟨1, "a", "b"⟩, ⟨2, "c", "d"⟩] "1" (some ⟨7, "x", "y"⟩)).2
      = [⟨1, "x", "y"⟩, ⟨2, "c", "d"⟩] ∧
    (⟨2, "c", "d"⟩ : User)
      ∈ (updateUser false false [⟨1, "a", "b"⟩, ⟨2, "c", "d"⟩] "1" (some ⟨7, "x", "y"⟩)).2 := by
  have h400 := (C10_update_frame [⟨1, "a", "b"⟩, ⟨2, "c", "d"⟩] "abc"
      (some ⟨7, "x", "y"⟩)).1 (by decide)
  have h := (C10_update_frame [⟨1, "a", "b"⟩, ⟨2, "c", "d"⟩] "1"
      (some ⟨7, "x", "y"⟩)).2.2.2 1 ⟨1, "a", "b"⟩ ⟨7, "x", "y"⟩ (by decide) (by decide) rfl
  refine ⟨h400, ?_, h.2.2.2 ⟨2, "c", "d"⟩ (by decide) (by decide)⟩
  rw [h.2.2.1]
  decide

end EchoGorm
